import Mathlib

/-!
Shallow embedding of `src/ind1.py`, a small command-line train ledger backed
by a SQLite file.  The database file is modelled as an explicit `DB` value
(a list of named tables holding rows of dynamically typed SQL values); each
`cursor.execute` call of the Python source is modelled by a Lean function on
that state which either succeeds or returns the `sqlite3.OperationalError`
SQLite would raise (`no such table`, `no such column`, ...).

Modelling notes, each matching documented SQLite / Python behaviour:
* `CREATE TABLE IF NOT EXISTS` never fails, so `create_db` is a total
  function `DB → DB`; Python's `sqlite3` autocommits DDL, so the created
  tables persist although `create_db` never calls `commit()`.
* A statement that raises leaves the database unchanged; in `add_train` the
  exception propagates before `conn.commit()`, so closing the connection
  rolls the transaction back and the caller observes the original state.
* Name resolution happens when a statement is prepared, before any row is
  produced: an unknown table in `FROM`/`JOIN` gives `no such table`, a
  column reference whose qualifier is not a table in scope (or whose column
  is absent from that table) gives `no such column`, an `INSERT` naming a
  column the target table lacks gives `table ... has no column named ...`.
* `AUTOINCREMENT` row ids and `NOT NULL` checks are not modelled (columns a
  successful `INSERT` does not supply are stored as `null`): no claim can
  observe them, because every statement that could read an id back fails
  name resolution first.
* SQL `NULL` comparison is simplified to structural equality; no claim
  reaches a row-level comparison involving `NULL`.
-/

namespace Ind1

/-- A dynamically typed SQLite value (Python side: `None`, `int`, `str`). -/
inductive Value where
  | null
  | int (n : Int)
  | text (s : String)
deriving DecidableEq

/-- One table of the SQLite file: its name, column names in order, and rows. -/
structure Table where
  name : String
  cols : List String
  rows : List (List Value)
deriving DecidableEq

/-- The whole database file: the list of its tables. -/
structure DB where
  tables : List Table
deriving DecidableEq

/-- The `sqlite3.OperationalError` variants the statements of the source can raise. -/
inductive SqlError where
  | noSuchTable (t : String)
  | noSuchColumn (c : String)
  | tableHasNoColumn (t c : String)
deriving DecidableEq

/-- Find a table of the database by name. -/
def lookupTable (db : DB) (n : String) : Option Table :=
  db.tables.find? (fun t => t.name = n)

/-- Semantics of `CREATE TABLE IF NOT EXISTS n (cols)`: a no-op when a table
named `n` exists, otherwise it appends a fresh empty table. -/
def createTableIfNotExists (db : DB) (n : String) (cols : List String) : DB :=
  match lookupTable db n with
  | some _ => db
  | none => ⟨db.tables ++ [⟨n, cols, []⟩]⟩

/-- `create_db` of the source: creates `groups(train_id, train_title)` and
`students(train_id, train_punkt, train_nomer, train_time)` if absent.
Note that no table named `trains` is ever created. -/
def create_db (db : DB) : DB :=
  createTableIfNotExists
    (createTableIfNotExists db "groups" ["train_id", "train_title"])
    "students" ["train_id", "train_punkt", "train_nomer", "train_time"]

/-- A column reference of a query: optional table qualifier and column name. -/
structure ColRef where
  tbl : Option String
  col : String
deriving DecidableEq

/-- The shape shared by the three `SELECT` statements of the source: a `FROM`
table, an optional `INNER JOIN ... ON c1 = c2`, the projected columns, and an
optional `WHERE c = ?` equality filter. -/
structure Query where
  fromTable : String
  join : Option (String × ColRef × ColRef)
  resultCols : List ColRef
  whereEq : Option (ColRef × Value)
deriving DecidableEq

/-- Resolve a column reference against the tables in scope (the `FROM` table
and the joined table, under the names they are written with).  Returns the
scope name and the column index, or the `no such column` error SQLite raises
for an unknown qualifier or column. -/
def resolveCol (scope : List (String × Table)) (c : ColRef) :
    Except SqlError (String × Nat) :=
  match c.tbl with
  | some tn =>
    match scope.lookup tn with
    | none => .error (.noSuchColumn (tn ++ "." ++ c.col))
    | some tab =>
      match tab.cols.indexOf? c.col with
      | none => .error (.noSuchColumn (tn ++ "." ++ c.col))
      | some i => .ok (tn, i)
  | none =>
    match scope.find? (fun p => p.2.cols.contains c.col) with
    | none => .error (.noSuchColumn c.col)
    | some p =>
      match p.2.cols.indexOf? c.col with
      | none => .error (.noSuchColumn c.col)
      | some i => .ok (p.1, i)

/-- Read a resolved column out of a row environment (scope name ↦ row). -/
def colVal (env : List (String × List Value)) (r : String × Nat) : Value :=
  match env.lookup r.1 with
  | some row => row.getD r.2 .null
  | none => .null

/-- The row environments produced by `FROM t1 INNER JOIN t2 ON lr = rr`:
all pairs of rows whose resolved `ON` columns are equal. -/
def joinTuples (n1 n2 : String) (t1 t2 : Table) (lr rr : String × Nat) :
    List (List (String × List Value)) :=
  (t1.rows.map (fun r1 =>
    (t2.rows.filter (fun r2 =>
      decide (colVal [(n1, r1), (n2, r2)] lr = colVal [(n1, r1), (n2, r2)] rr))).map
      (fun r2 => [(n1, r1), (n2, r2)]))).flatten

/-- Apply the `WHERE` filter and the projection of a query to the row
environments gathered from its `FROM`/`JOIN` part. -/
def finishQuery (scope : List (String × Table))
    (tuples : List (List (String × List Value))) (q : Query) :
    Except SqlError (List (List Value)) :=
  match
    (match q.whereEq with
     | none => Except.ok tuples
     | some (wc, v) =>
       match resolveCol scope wc with
       | .error e => .error e
       | .ok wr => .ok (tuples.filter (fun env => decide (colVal env wr = v))))
  with
  | .error e => .error e
  | .ok tl =>
    match q.resultCols.mapM (resolveCol scope) with
    | .error e => .error e
    | .ok rcols => .ok (tl.map (fun env => rcols.map (colVal env)))

/-- Evaluate a `SELECT` statement: resolve the `FROM` table, the joined table
and the `ON` columns (erroring exactly where SQLite would), then filter and
project.  A `SELECT` never modifies the database. -/
def evalQuery (db : DB) (q : Query) : Except SqlError (List (List Value)) :=
  match lookupTable db q.fromTable with
  | none => .error (.noSuchTable q.fromTable)
  | some t1 =>
    match q.join with
    | none =>
      finishQuery [(q.fromTable, t1)]
        (t1.rows.map (fun r => [(q.fromTable, r)])) q
    | some (jn, lc, rc) =>
      match lookupTable db jn with
      | none => .error (.noSuchTable jn)
      | some t2 =>
        match resolveCol [(q.fromTable, t1), (jn, t2)] lc with
        | .error e => .error e
        | .ok lr =>
          match resolveCol [(q.fromTable, t1), (jn, t2)] rc with
          | .error e => .error e
          | .ok rr =>
            finishQuery [(q.fromTable, t1), (jn, t2)]
              (joinTuples q.fromTable jn t1 t2 lr rr) q

/-- Semantics of `INSERT INTO tn (cols) VALUES (vals)`: errors when the table
is missing or names a column the table lacks; otherwise appends one row
(columns the statement does not supply are stored as `null`; see the header
note on `AUTOINCREMENT`). -/
def insertInto (db : DB) (tn : String) (cols : List String) (vals : List Value) :
    Except SqlError DB :=
  match lookupTable db tn with
  | none => .error (.noSuchTable tn)
  | some tab =>
    match cols.find? (fun c => !(tab.cols.contains c)) with
    | some c => .error (.tableHasNoColumn tn c)
    | none =>
      let row := tab.cols.map (fun c =>
        match cols.indexOf? c with
        | some i => vals.getD i .null
        | none => Value.null)
      .ok ⟨db.tables.map (fun t =>
        if t.name = tn then { t with rows := t.rows ++ [row] } else t)⟩

/-- The lookup query of `add_train`:
`SELECT train_nomer FROM trains WHERE group_title = ?`. -/
def addLookupQuery (nomer : Value) : Query :=
  { fromTable := "trains",
    join := none,
    resultCols := [⟨none, "train_nomer"⟩],
    whereEq := some (⟨none, "group_title"⟩, nomer) }

/-- `add_train` of the source.  Runs the group lookup, inserts a group row
when the lookup returned no row (`cursor.fetchone() is None`), then inserts
the train row and commits.  Any error propagates before `conn.commit()`, so
on error the returned database is the original one (rollback on close).
The result pairs the final database with `.ok ()` or the raised error. -/
def add_train (db : DB) (punkt nomer time : Value) :
    DB × Except SqlError Unit :=
  match evalQuery db (addLookupQuery nomer) with
  | .error e => (db, .error e)
  | .ok rows =>
    match
      (match rows.head? with
       | none => insertInto db "groups" ["group_title"] [nomer]
       | some _ => Except.ok db)
    with
    | .error e => (db, .error e)
    | .ok db2 =>
      match insertInto db2 "trains" ["train_punkt", "train_nomer", "train_time"]
          [punkt, nomer, time] with
      | .error e => (db, .error e)
      | .ok db3 => (db3, .ok ())

/-- A record returned by the read operations: the dict
`{"punkt_nazn": row[0], "nomer": row[1], "time": row[2]}` of the source. -/
structure TrainRow where
  punkt_nazn : Value
  nomer : Value
  time : Value
deriving DecidableEq

/-- Build the result dict of the read operations from a projected row. -/
def rowToRec (r : List Value) : TrainRow :=
  ⟨r.getD 0 .null, r.getD 1 .null, r.getD 2 .null⟩

/-- The query of `select_all`:
`SELECT trains.trains_punkt, groups.group_title, trains.train_nomer
 FROM trains INNER JOIN groups ON groups.trains_nomer = trains.trains_nomer`. -/
def selectAllQuery : Query :=
  { fromTable := "trains",
    join := some ("groups", ⟨some "groups", "trains_nomer"⟩,
      ⟨some "trains", "trains_nomer"⟩),
    resultCols := [⟨some "trains", "trains_punkt"⟩,
      ⟨some "groups", "group_title"⟩, ⟨some "trains", "train_nomer"⟩],
    whereEq := none }

/-- `select_all` of the source.  A read: the database component of the result
is the state after the call (unchanged in both branches). -/
def select_all (db : DB) : DB × Except SqlError (List TrainRow) :=
  match evalQuery db selectAllQuery with
  | .error e => (db, .error e)
  | .ok rows => (db, .ok (rows.map rowToRec))

/-- The query of `select_by_num`:
`SELECT trains.train_punkt, groups.group_title, trains.train_nomer
 FROM trains INNER JOIN groups ON groups.train_nomer = students.train_nomer
 WHERE groups.group_title = ?`.  Note the `ON` clause references
`students`, a table that is in neither `FROM` nor `JOIN`. -/
def selectByNumQuery (nomer : Value) : Query :=
  { fromTable := "trains",
    join := some ("groups", ⟨some "groups", "train_nomer"⟩,
      ⟨some "students", "train_nomer"⟩),
    resultCols := [⟨some "trains", "train_punkt"⟩,
      ⟨some "groups", "group_title"⟩, ⟨some "trains", "train_nomer"⟩],
    whereEq := some (⟨some "groups", "group_title"⟩, nomer) }

/-- `select_by_num` of the source, same conventions as `select_all`. -/
def select_by_num (db : DB) (nomer : Value) :
    DB × Except SqlError (List TrainRow) :=
  match evalQuery db (selectByNumQuery nomer) with
  | .error e => (db, .error e)
  | .ok rows => (db, .ok (rows.map rowToRec))

/-! Table renderer (`display_trains`).  Output is modelled as the list of
lines printed to standard output.  Python's `str.format` padding is modelled
exactly: `{:<w}` pads on the right, `{:>w}` on the left, `{:^w}` centres with
the extra space on the right; values are rendered with `str` (`None` prints
as `None`, ints in decimal). -/

/-- Render a value the way `str.format` does. -/
def pyStr : Value → String
  | .null => "None"
  | .int n => toString n
  | .text s => s

/-- A run of `n` copies of a character (Python `c * n`). -/
def charRun (c : Char) (n : Nat) : String :=
  String.mk (List.replicate n c)

/-- Python format spec `{:<w}`: left-aligned, padded with spaces to width `w`. -/
def padRight (s : String) (w : Nat) : String :=
  s ++ charRun ' ' (w - s.length)

/-- Python format spec `{:>w}`: right-aligned, padded with spaces to width `w`. -/
def padLeft (s : String) (w : Nat) : String :=
  charRun ' ' (w - s.length) ++ s

/-- Python format spec `{:^w}`: centred, the odd extra space going right. -/
def padCenter (s : String) (w : Nat) : String :=
  charRun ' ' ((w - s.length) / 2) ++ s ++
    charRun ' ' (w - s.length - (w - s.length) / 2)

/-- The border line `'+-{}-+-{}-+-{}-+-{}-+'.format('-'*4,'-'*30,'-'*20,'-'*20)`. -/
def tableLine : String :=
  "+-" ++ charRun '-' 4 ++ "-+-" ++ charRun '-' 30 ++ "-+-" ++
    charRun '-' 20 ++ "-+-" ++ charRun '-' 20 ++ "-+"

/-- The header row of the table (four centred column titles). -/
def headerRow : String :=
  "| " ++ padCenter "№" 4 ++ " | " ++ padCenter "Пункт назначиния" 30 ++
    " | " ++ padCenter "Номер поезда" 20 ++ " | " ++
    padCenter "время отправления" 20 ++ " |"

/-- One data row: `'| {:>4} | {:<30} | {:<20} |  {:<20} |'` applied to the
1-based index and the record's `punkt_nazn`, `nomer` and `time` entries. -/
def dataRow (idx : Nat) (tr : TrainRow) : String :=
  "| " ++ padLeft (toString idx) 4 ++ " | " ++
    padRight (pyStr tr.punkt_nazn) 30 ++ " | " ++
    padRight (pyStr tr.nomer) 20 ++ " |  " ++
    padRight (pyStr tr.time) 20 ++ " |"

/-- `display_trains` of the source: nothing at all for an empty list;
otherwise border, header, border, one data row per record (enumerated from
1 in input order), and a closing border. -/
def display_trains (trains : List TrainRow) : List String :=
  if trains.isEmpty then []
  else
    [tableLine, headerRow, tableLine] ++
      trains.enum.map (fun p => dataRow (p.1 + 1) p.2) ++
      [tableLine]

/-! Command-line dispatch (`main`).  The `argparse` layer is modelled for the
grammar the source declares: subcommands `add` (options `--db`, required
`-p` or `--punkt`, optional typed `-n` or `--nomer`, required typed `-t` or `--time`),
`display` (option `--db`) and `select` (options `--db`, required
`-s` or `--select`).  A parsed `Namespace` is an attribute list, because the
dispatch code of `main` reads attributes (`args.punkt_nazn`, `args.db`) that
the parser may not have set, raising `AttributeError`.  Per `argparse`
semantics: an unknown first token is `error: argument command: invalid
choice`, terminating the process with exit code 2 before anything else runs;
with no arguments the namespace holds only `command = None` — the `--db`
option lives on the subparsers (via the parent parser), so no `db` attribute
exists.  The file system is abstracted to the single database file the run
touches: `main` takes its prior state and the result carries its final
state. -/

/-- An `argparse` namespace: the attributes `parse_args` set. -/
abbrev PyNamespace := List (String × Value)

/-- Read an attribute of a namespace (`None` when unset → `AttributeError`). -/
def getAttr (ns : PyNamespace) (k : String) : Option Value :=
  ns.lookup k

/-- Set (or overwrite) an attribute of a namespace. -/
def setAttr (ns : PyNamespace) (k : String) (v : Value) : PyNamespace :=
  ns.filter (fun p => decide (p.1 ≠ k)) ++ [(k, v)]

/-- Default of the `--db` option: `str(Path.cwd() / "trains.db")`, with the
current directory abstracted away. -/
def defaultDbPath : Value := .text "trains.db"

/-- Fill in the defaults of the shared `--db` option after a subparser ran. -/
def ensureDbDefault (ns : PyNamespace) : PyNamespace :=
  match getAttr ns "db" with
  | some _ => ns
  | none => setAttr ns "db" defaultDbPath

/-- Value of a decimal digit character, or `none`. -/
def digitVal (c : Char) : Option Nat :=
  if c.isDigit then some (c.toNat - 48) else none

/-- Fold a run of decimal digits into a number, failing on a non-digit. -/
def decDigits : List Char → Nat → Option Nat
  | [], acc => some acc
  | c :: cs, acc =>
    match digitVal c with
    | none => none
    | some d => decDigits cs (acc * 10 + d)

/-- Python `int(s)` on the plain decimal literals the CLI can receive: an
optional sign followed by at least one digit. -/
def pyInt? (s : String) : Option Int :=
  match s.data with
  | [] => none
  | '-' :: [] => none
  | '-' :: cs => (decDigits cs 0).map (fun n => -(n : Int))
  | '+' :: [] => none
  | '+' :: cs => (decDigits cs 0).map (fun n => (n : Int))
  | cs => (decDigits cs 0).map (fun n => (n : Int))

/-- `argparse` `type=int` conversion: an unparsable token is a parse error. -/
def parseIntToken (flag s : String) : Except String Value :=
  match pyInt? s with
  | some n => .ok (.int n)
  | none => .error ("argument " ++ flag ++ ": invalid int value: " ++ s)

/-- Option loop of the `add` subparser over the remaining tokens. -/
def parseAddArgs : List String → PyNamespace → Except String PyNamespace
  | [], ns =>
    match getAttr ns "punkt" with
    | none => .error "the following arguments are required: -p/--punkt"
    | some _ =>
      match getAttr ns "time" with
      | none => .error "the following arguments are required: -t/--time"
      | some _ =>
        let ns := match getAttr ns "nomer" with
          | some _ => ns
          | none => setAttr ns "nomer" .null
        .ok (ensureDbDefault ns)
  | "--db" :: v :: rest, ns => parseAddArgs rest (setAttr ns "db" (.text v))
  | "-p" :: v :: rest, ns => parseAddArgs rest (setAttr ns "punkt" (.text v))
  | "--punkt" :: v :: rest, ns => parseAddArgs rest (setAttr ns "punkt" (.text v))
  | "-n" :: v :: rest, ns =>
    match parseIntToken "-n/--nomer" v with
    | .error e => .error e
    | .ok n => parseAddArgs rest (setAttr ns "nomer" n)
  | "--nomer" :: v :: rest, ns =>
    match parseIntToken "-n/--nomer" v with
    | .error e => .error e
    | .ok n => parseAddArgs rest (setAttr ns "nomer" n)
  | "-t" :: v :: rest, ns =>
    match parseIntToken "-t/--time" v with
    | .error e => .error e
    | .ok n => parseAddArgs rest (setAttr ns "time" n)
  | "--time" :: v :: rest, ns =>
    match parseIntToken "-t/--time" v with
    | .error e => .error e
    | .ok n => parseAddArgs rest (setAttr ns "time" n)
  | other :: _, _ => .error ("unrecognized arguments: " ++ other)

/-- Option loop of the `display` subparser (only the shared `--db`). -/
def parseDisplayArgs : List String → PyNamespace → Except String PyNamespace
  | [], ns => .ok (ensureDbDefault ns)
  | "--db" :: v :: rest, ns => parseDisplayArgs rest (setAttr ns "db" (.text v))
  | other :: _, _ => .error ("unrecognized arguments: " ++ other)

/-- Option loop of the `select` subparser (`--db` and required `-s` or `--select`). -/
def parseSelectArgs : List String → PyNamespace → Except String PyNamespace
  | [], ns =>
    match getAttr ns "select" with
    | none => .error "the following arguments are required: -s/--select"
    | some _ => .ok (ensureDbDefault ns)
  | "--db" :: v :: rest, ns => parseSelectArgs rest (setAttr ns "db" (.text v))
  | "-s" :: v :: rest, ns => parseSelectArgs rest (setAttr ns "select" (.text v))
  | "--select" :: v :: rest, ns =>
    parseSelectArgs rest (setAttr ns "select" (.text v))
  | other :: _, _ => .error ("unrecognized arguments: " ++ other)

/-- `parser.parse_args` over the declared grammar: no tokens yield the bare
namespace `command = None`; a known subcommand runs its option loop; any
other first token is `argparse`'s `invalid choice` error (exit code 2). -/
def parse_args : List String → Except String PyNamespace
  | [] => .ok [("command", .null)]
  | "add" :: rest => parseAddArgs rest [("command", .text "add")]
  | "display" :: rest => parseDisplayArgs rest [("command", .text "display")]
  | "select" :: rest => parseSelectArgs rest [("command", .text "select")]
  | w :: _ => .error ("argument command: invalid choice: " ++ w)

/-- Unhandled Python exceptions the dispatch can raise. -/
inductive PyErr where
  | attributeError (attr : String)
  | operationalError (e : SqlError)
deriving DecidableEq

/-- Outcome of one process run: `argparse` error (usage text on stderr, exit
code 2), an uncaught exception (traceback, nonzero exit) with the database
state at that point, or a normal return (exit code 0) with the lines printed
to standard output and the final database state. -/
inductive MainResult where
  | parseExit (msg : String)
  | uncaught (e : PyErr) (db : DB)
  | ok (stdout : List String) (db : DB)
deriving DecidableEq

/-- `main` of the source: parse the arguments, read `args.db`, initialize the
schema, then dispatch on `args.command`.  The `add` branch reads
`args.punkt_nazn` (an attribute the parser never sets: the destination is
stored under `punkt`), then `args.nomer` and `args.time`. -/
def main (argv : List String) (db0 : DB) : MainResult :=
  match parse_args argv with
  | .error msg => .parseExit msg
  | .ok ns =>
    match getAttr ns "db" with
    | none => .uncaught (.attributeError "db") db0
    | some _ =>
      let db1 := create_db db0
      if getAttr ns "command" = some (.text "add") then
        match getAttr ns "punkt_nazn" with
        | none => .uncaught (.attributeError "punkt_nazn") db1
        | some p =>
          match getAttr ns "nomer" with
          | none => .uncaught (.attributeError "nomer") db1
          | some n =>
            match getAttr ns "time" with
            | none => .uncaught (.attributeError "time") db1
            | some t =>
              match add_train db1 p n t with
              | (db2, .ok ()) => .ok [] db2
              | (db2, .error e) => .uncaught (.operationalError e) db2
      else if getAttr ns "command" = some (.text "display") then
        match select_all db1 with
        | (db2, .ok rows) => .ok (display_trains rows) db2
        | (db2, .error e) => .uncaught (.operationalError e) db2
      else if getAttr ns "command" = some (.text "select") then
        match getAttr ns "select" with
        | none => .uncaught (.attributeError "select") db1
        | some s =>
          match select_by_num db1 s with
          | (db2, .ok rows) => .ok (display_trains rows) db2
          | (db2, .error e) => .uncaught (.operationalError e) db2
      else .ok [] db1

/-- The empty database file (no tables yet). -/
def emptyDB : DB := ⟨[]⟩

/-- A freshly initialized, zero-record database. -/
def freshDB : DB := create_db emptyDB

/-- The example record of the specification's concrete scenario. -/
def moscowRow : TrainRow := ⟨.text "Moscow", .int 42, .int 800⟩

/-- The command line of the specification's concrete scenario:
`add -p "Moscow" -n 42 -t 800`. -/
def addMoscowArgv : List String :=
  ["add", "-p", "Moscow", "-n", "42", "-t", "800"]

/-! Helper lemmas about the schema operations. -/

/-- Creating a table that already exists is a no-op. -/
theorem ctine_noop (db : DB) (n : String) (cols : List String)
    (h : (lookupTable db n).isSome) : createTableIfNotExists db n cols = db := by
  unfold createTableIfNotExists
  cases hh : lookupTable db n with
  | some t => rfl
  | none => rw [hh] at h; simp at h

/-- After `CREATE TABLE IF NOT EXISTS n`, a table named `n` exists. -/
theorem lookup_ctine_self (db : DB) (n : String) (cols : List String) :
    (lookupTable (createTableIfNotExists db n cols) n).isSome := by
  unfold createTableIfNotExists
  cases hh : lookupTable db n with
  | some t => rw [hh]; rfl
  | none =>
    unfold lookupTable at hh ⊢
    simp [List.find?_append, hh]

/-- `CREATE TABLE IF NOT EXISTS n` does not affect lookups of other names. -/
theorem lookup_ctine_other (db : DB) (n : String) (cols : List String)
    (m : String) (h : m ≠ n) :
    lookupTable (createTableIfNotExists db n cols) m = lookupTable db m := by
  unfold createTableIfNotExists
  cases hh : lookupTable db n with
  | some t => rfl
  | none =>
    unfold lookupTable
    simp only [List.find?_append]
    cases hm : (db.tables).find? (fun t => decide (t.name = m)) with
    | some t => rfl
    | none =>
      have hd : (decide (n = m)) = false := by
        simp only [decide_eq_false_iff_not]
        exact fun hx => h hx.symm
      simp [List.find?, hd]

/-- After `create_db`, no table named `trains` exists unless one was already
there: the schema creates only `groups` and `students`. -/
theorem create_db_no_trains (db : DB) (h : lookupTable db "trains" = none) :
    lookupTable (create_db db) "trains" = none := by
  unfold create_db
  rw [lookup_ctine_other _ _ _ _ (by decide),
    lookup_ctine_other _ _ _ _ (by decide)]
  exact h

/-- The `ON` clause of `select_by_num` references `students.train_nomer`,
and `students` is never in scope (`FROM trains INNER JOIN groups`), so the
reference can never resolve. -/
theorem resolve_students_fails (t1 t2 : Table) :
    resolveCol [("trains", t1), ("groups", t2)]
      ⟨some "students", "train_nomer"⟩ =
      .error (.noSuchColumn "students.train_nomer") := rfl

/-- The query of `select_by_num` fails name resolution on every database:
either a table of the `FROM`/`JOIN` part is missing, or the `ON` clause's
reference to `students.train_nomer` (a table not in scope) cannot resolve. -/
theorem selectByNumQuery_errors (db : DB) (nomer : Value) :
    ∃ e, evalQuery db (selectByNumQuery nomer) = .error e := by
  cases h1 : lookupTable db "trains" with
  | none =>
    exact ⟨.noSuchTable "trains", by simp [evalQuery, selectByNumQuery, h1]⟩
  | some t1 =>
    cases h2 : lookupTable db "groups" with
    | none =>
      exact ⟨.noSuchTable "groups",
        by simp [evalQuery, selectByNumQuery, h1, h2]⟩
    | some t2 =>
      cases h3 : resolveCol [("trains", t1), ("groups", t2)]
          ⟨some "groups", "train_nomer"⟩ with
      | error e =>
        exact ⟨e, by simp [evalQuery, selectByNumQuery, h1, h2, h3]⟩
      | ok lr =>
        refine ⟨.noSuchColumn "students.train_nomer", ?_⟩
        simp [evalQuery, selectByNumQuery, h1, h2, h3,
          resolve_students_fails]

/-- The non-empty rendering of `display_trains`, spelled out in cons form. -/
theorem display_trains_of_ne (ts : List TrainRow) (h : ts ≠ []) :
    display_trains ts =
      tableLine :: headerRow :: tableLine ::
        (ts.enum.map (fun p => dataRow (p.1 + 1) p.2) ++ [tableLine]) := by
  unfold display_trains
  rw [if_neg (by simpa using h)]
  simp [List.cons_append]

/-- Indexing past three leading cons cells. -/
theorem getElem?_cons3 (a b c : String) (l : List String) (n : Nat) :
    (a :: b :: c :: l)[n + 3]? = l[n]? := by
  rw [show n + 3 = n + 2 + 1 from rfl, List.getElem?_cons_succ,
    show n + 2 = n + 1 + 1 from rfl, List.getElem?_cons_succ,
    List.getElem?_cons_succ]

/-! The claims. -/

/-- C1: the round-trip law fails on the code.  On a freshly initialized
database the `add` operation raises `no such table: trains` (its lookup query
reads a table `create_db` never creates) and stores nothing, and a subsequent
`display` raises the same error instead of showing the record: the added
record never appears in any `display` output. -/
theorem c1_roundtrip_add_then_display_fails :
    add_train freshDB (.text "Moscow") (.int 42) (.int 800) =
      (freshDB, .error (.noSuchTable "trains")) ∧
    main ["display"] freshDB =
      .uncaught (.operationalError (.noSuchTable "trains")) freshDB :=
  ⟨rfl, rfl⟩

/-- C2: on any database initialized by `create_db` (from a state with no
`trains` table), `add_train` raises `no such table: trains` on its very first
statement and leaves the database unchanged — no train record and no group
row is ever inserted, for every destination, number and time. -/
theorem c2_add_train_inserts_nothing (db : DB)
    (h : lookupTable db "trains" = none) (p n t : Value) :
    add_train (create_db db) p n t =
      (create_db db, .error (.noSuchTable "trains")) := by
  have h2 : lookupTable (create_db db) "trains" = none :=
    create_db_no_trains db h
  have he : evalQuery (create_db db) (addLookupQuery n) =
      .error (.noSuchTable "trains") := by
    simp [evalQuery, addLookupQuery, h2]
  unfold add_train
  rw [he]

/-- Witness for C2 at the concrete scenario input. -/
theorem c2_add_train_inserts_nothing_witness :
    add_train freshDB (.text "Moscow") (.int 42) (.int 800) =
      (freshDB, .error (.noSuchTable "trains")) :=
  c2_add_train_inserts_nothing emptyDB rfl (.text "Moscow") (.int 42) (.int 800)

/-- C3: the dispatcher never reaches the Record Writer.  Parsing the valid
command line `add -p Moscow -n 42 -t 800` stores the destination under the
attribute `punkt` and sets no attribute `punkt_nazn`, so the dispatch line
`add_train(db_path, args.punkt_nazn, ...)` raises `AttributeError` (after
schema initialization, before `add_train` runs). -/
theorem c3_add_dispatch_raises_attribute_error :
    parse_args addMoscowArgv =
      .ok [("command", .text "add"), ("punkt", .text "Moscow"),
        ("nomer", .int 42), ("time", .int 800), ("db", defaultDbPath)] ∧
    getAttr [("command", Value.text "add"), ("punkt", Value.text "Moscow"),
        ("nomer", Value.int 42), ("time", Value.int 800),
        ("db", defaultDbPath)] "punkt_nazn" = none ∧
    main addMoscowArgv emptyDB =
      .uncaught (.attributeError "punkt_nazn") freshDB :=
  ⟨rfl, rfl, rfl⟩

/-- C4: `display` on a freshly initialized, zero-record database does not
complete normally: `select_all` raises `no such table: trains` and the
process dies with an uncaught exception (it does print nothing, but only
because it crashes before rendering). -/
theorem c4_display_empty_db_crashes :
    main ["display"] freshDB =
      .uncaught (.operationalError (.noSuchTable "trains")) freshDB :=
  rfl

/-- C5: neither an absent nor an unknown subcommand exits silently with
status 0.  With no subcommand the main parser's namespace has no `db`
attribute (the shared `--db` option lives on the subparsers), so
`Path(args.db)` raises `AttributeError` before schema initialization; with an
unknown subcommand `argparse` rejects it (`invalid choice`, exit code 2)
before `main`'s body runs at all. -/
theorem c5_no_or_unknown_subcommand_not_silent :
    main [] emptyDB = .uncaught (.attributeError "db") emptyDB ∧
    main ["frobnicate"] emptyDB =
      .parseExit "argument command: invalid choice: frobnicate" :=
  ⟨rfl, rfl⟩

/-- C6: `select_by_num` never returns any record on any database state and
for any filter value: its join condition references `students.train_nomer`,
a table that is in neither `FROM` nor `JOIN`, so the query always fails name
resolution (on the shipped schema it fails even earlier: no table `trains`).
It therefore cannot return the records whose number matches the filter. -/
theorem c6_select_by_num_never_returns (db : DB) (nomer : Value) :
    (select_by_num db nomer).1 = db ∧
    ∃ e, (select_by_num db nomer).2 = .error e := by
  obtain ⟨e, he⟩ := selectByNumQuery_errors db nomer
  constructor
  · unfold select_by_num; rw [he]
  · exact ⟨e, by unfold select_by_num; rw [he]⟩

/-- Witness for C6 on a concrete state and filter. -/
theorem c6_select_by_num_never_returns_witness :
    (select_by_num freshDB (.int 42)).1 = freshDB ∧
    ∃ e, (select_by_num freshDB (.int 42)).2 = .error e :=
  c6_select_by_num_never_returns freshDB (.int 42)

/-- C7: neither read operation ever returns a destination/number/time triple
on the schema the program creates: both queries raise `no such table: trains`
(and the `select_all` projection maps the `time` field to the
`trains.train_nomer` column, not to any time column, so even a repaired
schema would put the train number in the `time` field). -/
theorem c7_reads_return_no_triples :
    (select_all freshDB).2 = .error (.noSuchTable "trains") ∧
    (select_by_num freshDB (.int 42)).2 = .error (.noSuchTable "trains") ∧
    selectAllQuery.resultCols = [⟨some "trains", "trains_punkt"⟩,
      ⟨some "groups", "group_title"⟩, ⟨some "trains", "train_nomer"⟩] :=
  ⟨rfl, rfl, rfl⟩

/-- C8: schema initialization is idempotent: `create_db` uses
`CREATE TABLE IF NOT EXISTS` for both tables, so it never fails (it is a
total function of the state) and running it a second time changes nothing —
the schema after two calls equals the schema after one. -/
theorem c8_create_db_idempotent (db : DB) :
    create_db (create_db db) = create_db db := by
  unfold create_db
  have hg : (lookupTable (createTableIfNotExists
      (createTableIfNotExists db "groups" ["train_id", "train_title"])
      "students" ["train_id", "train_punkt", "train_nomer", "train_time"])
      "groups").isSome := by
    rw [lookup_ctine_other _ _ _ _ (by decide)]
    exact lookup_ctine_self _ _ _
  rw [ctine_noop _ _ _ hg]
  exact ctine_noop _ _ _ (lookup_ctine_self _ _ _)

/-- Witness for C8 on the empty database file. -/
theorem c8_create_db_idempotent_witness :
    create_db (create_db emptyDB) = create_db emptyDB :=
  c8_create_db_idempotent emptyDB

/-- C9: `display_trains` prints nothing exactly on the empty sequence; on a
non-empty sequence it prints `ts.length + 4` lines: a border, the header row
(index, destination, train number, departure time), a border, then one data
row per record in input order indexed from 1, and a closing border. -/
theorem c9_display_trains_renders (ts : List TrainRow) :
    (display_trains ts = [] ↔ ts = []) ∧
    (ts ≠ [] →
      (display_trains ts).length = ts.length + 4 ∧
      (display_trains ts)[0]? = some tableLine ∧
      (display_trains ts)[1]? = some headerRow ∧
      (display_trains ts)[2]? = some tableLine ∧
      (display_trains ts)[ts.length + 3]? = some tableLine ∧
      ∀ i, i < ts.length →
        (display_trains ts)[3 + i]? =
          (ts[i]?).map (fun tr => dataRow (i + 1) tr)) := by
  constructor
  · constructor
    · intro h
      by_contra hne
      rw [display_trains_of_ne ts hne] at h
      simp at h
    · intro h; subst h; rfl
  · intro hne
    rw [display_trains_of_ne ts hne]
    have hlen : (ts.enum.map (fun p => dataRow (p.1 + 1) p.2)).length
        = ts.length := by
      simp [List.enum_length]
    refine ⟨?_, List.getElem?_cons_zero, ?_, ?_, ?_, ?_⟩
    · simp only [List.length_cons, List.length_append, hlen,
        List.length_nil]
    · rw [show (1 : Nat) = 0 + 1 from rfl, List.getElem?_cons_succ,
        List.getElem?_cons_zero]
    · rw [show (2 : Nat) = 1 + 1 from rfl, List.getElem?_cons_succ,
        show (1 : Nat) = 0 + 1 from rfl, List.getElem?_cons_succ,
        List.getElem?_cons_zero]
    · rw [getElem?_cons3, List.getElem?_append_right (le_of_eq hlen), hlen]
      simp
    · intro i hi
      rw [Nat.add_comm 3 i, getElem?_cons3,
        List.getElem?_append_left (by rw [hlen]; exact hi),
        List.getElem?_map, List.getElem?_enum, Option.map_map]
      rfl

/-- Witness for C9: nothing is printed for the empty sequence, and the one
record of the concrete scenario appears as data row 1 at line index 3. -/
theorem c9_display_trains_renders_witness :
    display_trains [] = [] ∧
    (display_trains [moscowRow])[3]? = some (dataRow 1 moscowRow) := by
  constructor
  · exact (c9_display_trains_renders []).1.mpr rfl
  · have h := ((c9_display_trains_renders [moscowRow]).2
      (by simp)).2.2.2.2.2 0 (by decide)
    simpa using h

/-- C10: the read operations mutate nothing: whatever the database state
(and whether the query succeeds or raises), the state after `select_all` or
`select_by_num` is exactly the state before. -/
theorem c10_reads_never_mutate (db : DB) (nomer : Value) :
    (select_all db).1 = db ∧ (select_by_num db nomer).1 = db := by
  constructor
  · unfold select_all; split <;> rfl
  · unfold select_by_num; split <;> rfl

/-- Witness for C10 on a concrete state and filter. -/
theorem c10_reads_never_mutate_witness :
    (select_all freshDB).1 = freshDB ∧
    (select_by_num freshDB (.int 5)).1 = freshDB :=
  c10_reads_never_mutate freshDB (.int 5)

end Ind1
